import Mathlib

/-!
Verification of the jakebot commitment-extraction / task-lifecycle /
dual-system-sync core against its natural-language specification.

Each Python module of the core is shallowly embedded as Lean definitions:
pure functions become Lean functions, methods that mutate `self` become
functions threading an explicit state value, `datetime.now()` becomes an
explicit timestamp parameter, and every Python exception path becomes an
`Except` value.  External collaborators (the NowCerts / Close API clients)
are parameters of the embedded functions.  One module of the detector
cluster, `ai_agents/time_parser.py`, is not syntactically valid Python;
for the claims that depend on it, the file embeds enough of Python line
lexing to derive that fact and the import outcomes that follow from it.
-/

namespace JakeBot

/-! ## Python-modelling helpers -/

/-- Python exceptions that the embedded code can raise internally. -/
inductive PyExc where
  | valueError (msg : String)
  | attributeError (name : String)
  | indexError (msg : String)
  | validationError (msg : String)
  | taskNotFoundError (msg : String)
  | nameError (name : String)
  | typeError (msg : String)
  | syntaxError (msg : String)
  | exc (msg : String)
deriving DecidableEq, Repr

/-- The `str(e)` rendering used when an exception message is interpolated. -/
def PyExc.str : PyExc → String
  | .valueError m => m
  | .attributeError n => "AttributeError: " ++ n
  | .indexError m => m
  | .validationError m => m
  | .taskNotFoundError m => m
  | .nameError n => "NameError: name " ++ n ++ " is not defined"
  | .typeError m => m
  | .syntaxError m => m
  | .exc m => m

/-- The `chPre p s` : `p` is a leading run of `s` (character-list prefix test). -/
def chPre : List Char → List Char → Bool
  | [], _ => true
  | _ :: _, [] => false
  | c :: p, d :: s => c = d && chPre p s

/-- The `chSub p s` : `p` occurs contiguously inside `s`. -/
def chSub (p : List Char) : List Char → Bool
  | [] => chPre p []
  | d :: s => chPre p (d :: s) || chSub p s

/-- Python's `needle in hay` on strings. -/
def pyIn (needle hay : String) : Bool := chSub needle.data hay.data

/-- A Python `dict` keyed by strings, with insertion order preserved, as the
in-memory stores of the core are (task tracker, sync mappings, stats). -/
abbrev PyDict (α : Type) := List (String × α)

/-- The `d[k]` lookup (`None`/`KeyError` side folded into `Option`). -/
def dictGet (k : String) (d : PyDict α) : Option α :=
  (d.find? (fun p => p.1 = k)).map (·.2)

/-- The `d[k] = v`: replace in place when the key exists, append otherwise. -/
def dictSet (k : String) (v : α) (d : PyDict α) : PyDict α :=
  if d.any (fun p => p.1 = k) then
    d.map (fun p => if p.1 = k then (k, v) else p)
  else
    d ++ [(k, v)]

/-- Number of entries stored under key `k` (a real `dict` always has 0 or 1). -/
def countKey (k : String) (d : PyDict α) : Nat :=
  (d.filter (fun p => p.1 = k)).length

/-- Wall-clock datetimes at second resolution, days counted from an arbitrary
epoch.  The core only ever rewrites the time-of-day (`datetime.replace`),
adds whole days (`timedelta(days=n)`), subtracts two datetimes, and compares
hours, so this carries exactly the structure those operations touch. -/
structure DateTime where
  day : Nat
  hour : Nat
  minute : Nat
  second : Nat
deriving DecidableEq, Repr

/-- Seconds since the epoch; datetime subtraction happens on this. -/
def DateTime.toSec (dt : DateTime) : Int :=
  ((dt.day * 24 + dt.hour) * 60 + dt.minute) * 60 + dt.second

/-! ## `workflow/transaction.py` (claims C3, C10)

`TransactionStep.operation` is invoked as `await step.operation(**step.data)`;
its effect is embedded as the `Except` outcome the call would produce, and a
step's optional compensating action likewise carries its own outcome.  A
`TransactionManager` is its `completed_steps` list.  Executing a step yields
the new manager state, the call's result, and the ordered trace of
compensating actions attempted during this call (step names, in the order
`rollback` tried them). -/

/-- One transaction step: name/system/data plus the outcome of running its
operation, and the outcome of its compensating action when it has one. -/
structure TStep where
  opName : String
  system : String
  opResult : Except String Int
  rollback_fn : Option (Except String Unit)
deriving Repr

/-- The `TransactionManager` state: the completed-steps list. -/
structure TxState where
  completed_steps : List TStep
deriving Repr

/-- Module-level names in scope in `workflow/transaction.py` (its imports and
its own definitions).  `TransactionError` is not among them, and
`jakebot/exceptions.py` defines no such class either. -/
def transactionModuleNames : List String :=
  ["List", "Dict", "Any", "Optional", "dataclass", "logging", "logger",
   "TransactionStep", "TransactionManager"]

/-- Errors surfacing out of `execute_step`. -/
inductive TxErr where
  | transactionError (msg : String) (step : String) (completed_steps : List String)
  | nameError (name : String)
deriving DecidableEq, Repr

/-- Evaluating the name `n` in the module namespace to raise `e`: when the
name is not bound, Python raises `NameError` instead. -/
def raiseByName (n : String) (env : List String) (e : TxErr) : TxErr :=
  if n ∈ env then e else .nameError n

/-- The `TransactionManager.rollback`: walk `completed_steps` in reverse; for each
step with a compensating action, run it; a compensation's own exception is
logged and swallowed, never re-raised.  The returned list is the trace of
compensations attempted, in order. -/
def TransactionManager.rollback (st : TxState) : List String :=
  st.completed_steps.reverse.foldl
    (fun tr s => match s.rollback_fn with
      | none => tr
      | some _ => tr ++ [s.opName])
    []

/-- The `TransactionManager.execute_step`: run the operation; on success append
the step to `completed_steps` and return the result; on any failure run
`rollback()` and then raise `TransactionError(str(e), step=step.operation,
completed_steps=[s.operation for s in self.completed_steps])` — a name that
is unbound in this module. -/
def TransactionManager.execute_step (st : TxState) (step : TStep) :
    TxState × Except TxErr Int × List String :=
  match step.opResult with
  | .ok v => (⟨st.completed_steps ++ [step]⟩, .ok v, [])
  | .error msg =>
      let tr := TransactionManager.rollback st
      (st,
       .error (raiseByName "TransactionError" transactionModuleNames
         (.transactionError msg step.opName (st.completed_steps.map (·.opName)))),
       tr)

/-- Run a list of steps in order, keeping only the evolving manager state
(used to interleave successful steps between two failures). -/
def TransactionManager.runSteps (st : TxState) (steps : List TStep) : TxState :=
  steps.foldl (fun s stp => (TransactionManager.execute_step s stp).1) st

/-- The compensation trace `rollback` produces from a completed list: reverse
completion order, one entry per step that has a compensating action. -/
def rollbackTraceOf (completed : List TStep) : List String :=
  completed.reverse.filterMap (fun s => s.rollback_fn.map (fun _ => s.opName))

/-! ## `workflow/task_status.py` and `workflow/task_lifecycle.py`
(claims C2, C9) -/

/-- The `TaskStatus` enum exactly as `workflow/task_status.py` declares it:
six members.  (`task_lifecycle.py`, the integration tests and the spec all
additionally speak of `CANCELLED`, which this enum does not define.) -/
inductive TaskStatus where
  | pending
  | in_progress
  | completed
  | failed
  | needs_approval
  | rejected
deriving DecidableEq, Repr

/-- Python attribute access `TaskStatus.<name>`: the member when it exists,
`none` (an `AttributeError` at runtime) otherwise. -/
def TaskStatus.lookupMember : String → Option TaskStatus
  | "PENDING" => some .pending
  | "IN_PROGRESS" => some .in_progress
  | "COMPLETED" => some .completed
  | "FAILED" => some .failed
  | "NEEDS_APPROVAL" => some .needs_approval
  | "REJECTED" => some .rejected
  | _ => none

/-- One entry of a task's `status_history` (the initial entry carries no
`notes` key; update entries carry an optional `notes`). -/
structure HistoryEntry where
  status : TaskStatus
  timestamp : Nat
  notes : Option String
deriving DecidableEq, Repr

/-- The tracked record `TaskStatusTracker` keeps per task id (the fields the
lifecycle manager reads, plus the tracker's own bookkeeping fields). -/
structure TrackedTask where
  system : String
  status : TaskStatus
  created_at : Nat
  last_updated : Nat
  status_history : List HistoryEntry
deriving DecidableEq, Repr

/-- The `TaskStatusTracker` state: its `tasks` dict. -/
abbrev TrackerState := PyDict TrackedTask

/-- The `TaskStatusTracker.add_task`: store the task with status `PENDING`,
timestamps, and a one-entry history. -/
def TaskStatusTracker.add_task (st : TrackerState) (task_id system : String)
    (now : Nat) : TrackerState :=
  dictSet task_id
    { system := system, status := .pending, created_at := now,
      last_updated := now,
      status_history := [{ status := .pending, timestamp := now, notes := none }] }
    st

/-- The `TaskStatusTracker.get_task_status`: the record, or `ValueError` when the
id is not tracked. -/
def TaskStatusTracker.get_task_status (st : TrackerState) (task_id : String) :
    Except PyExc TrackedTask :=
  match dictGet task_id st with
  | none => .error (.valueError ("Task " ++ task_id ++ " not found"))
  | some t => .ok t

/-- The `TaskStatusTracker.update_status`: set the current status, refresh
`last_updated`, and append a history entry; `ValueError` when untracked. -/
def TaskStatusTracker.update_status (st : TrackerState) (task_id : String)
    (status : TaskStatus) (notes : Option String) (now : Nat) :
    Except PyExc TrackerState :=
  match dictGet task_id st with
  | none => .error (.valueError ("Task " ++ task_id ++ " not found"))
  | some t =>
      .ok (dictSet task_id
        { t with status := status, last_updated := now,
                 status_history := t.status_history ++
                   [{ status := status, timestamp := now, notes := notes }] }
        st)

/-- The `updates` dict passed to `update_task` (the keys the code reads). -/
structure Updates where
  status : Option TaskStatus
  notes : Option String
deriving DecidableEq, Repr

/-- The two API clients' `update_task`, abstractly: each returns the updated
record (embedded as an uninterpreted string payload) or raises. -/
structure LifecycleEnv where
  nowcertsUpdate : String → Updates → Except PyExc String
  closeUpdate : String → Updates → Except PyExc String

/-- Errors surfacing out of the lifecycle manager. -/
inductive LcErr where
  | taskUpdateError (msg : String)
  | taskNotFoundError (msg : String)
  | taskError (msg : String)
deriving DecidableEq, Repr

/-- The `TaskLifecycleManager._validate_state_transition`.  The body first builds
the `valid_transitions` dict literal, whose every value set names
`TaskStatus.CANCELLED`; evaluating that attribute on the six-member enum
raises `AttributeError` before any membership test.  The dict that WOULD be
built if the member existed is translated below the lookup for completeness. -/
def validate_state_transition (current_status new_status : TaskStatus) :
    Except PyExc Unit :=
  match TaskStatus.lookupMember "CANCELLED" with
  | none => .error (.attributeError "CANCELLED")
  | some cancelled =>
      let valid_transitions : TaskStatus → List TaskStatus := fun s =>
        match s with
        | .pending => [.in_progress, cancelled]
        | .in_progress => [.completed, .failed, .needs_approval, cancelled]
        | .needs_approval => [.in_progress, .completed, .rejected, cancelled]
        | _ => []
      if new_status ∈ valid_transitions current_status then .ok ()
      else .error (.validationError
        "ValidationError: Invalid state transition")

/-- How `update_task`'s handlers re-raise an exception from its body:
`TaskNotFoundError` passes through, anything else becomes
`TaskUpdateError("Failed to update task: ...")`. -/
def wrapUpdateExc (e : PyExc) : LcErr :=
  match e with
  | .taskNotFoundError m => .taskNotFoundError m
  | e => .taskUpdateError ("Failed to update task: " ++ e.str)

/-- The `TaskLifecycleManager.update_task`: look up the tracked record, validate
the transition when `updates` carries a status, dispatch to the owning
system's client, then append to the tracker's history.  Returns the (possibly
updated) tracker state and the call's outcome. -/
def TaskLifecycleManager.update_task (env : LifecycleEnv) (now : Nat)
    (st : TrackerState) (task_id : String) (updates : Updates) :
    TrackerState × Except LcErr String :=
  match TaskStatusTracker.get_task_status st task_id with
  | .error e => (st, .error (wrapUpdateExc e))
  | .ok current_task =>
    let valRes : Except PyExc Unit :=
      match updates.status with
      | some ns => validate_state_transition current_task.status ns
      | none => .ok ()
    match valRes with
    | .error e => (st, .error (wrapUpdateExc e))
    | .ok _ =>
      let clientRes :=
        if current_task.system = "NowCerts" then env.nowcertsUpdate task_id updates
        else env.closeUpdate task_id updates
      match clientRes with
      | .error e => (st, .error (wrapUpdateExc e))
      | .ok updated_task =>
        match TaskStatusTracker.update_status st task_id
            (updates.status.getD current_task.status) updates.notes now with
        | .error e => (st, .error (wrapUpdateExc e))
        | .ok st2 => (st2, .ok updated_task)

/-- The `TaskLifecycleManager.cancel_task`: look up the record, build the
cancellation `updates` dict — whose construction evaluates
`TaskStatus.CANCELLED` — dispatch it, and record the transition; any
exception in the body is re-raised as `TaskError("Failed to cancel task:
...")`. -/
def TaskLifecycleManager.cancel_task (env : LifecycleEnv) (now : Nat)
    (st : TrackerState) (task_id reason : String) :
    TrackerState × Except LcErr String :=
  match TaskStatusTracker.get_task_status st task_id with
  | .error e => (st, .error (.taskError ("Failed to cancel task: " ++ e.str)))
  | .ok current_task =>
    match TaskStatus.lookupMember "CANCELLED" with
    | none =>
        (st, .error (.taskError ("Failed to cancel task: " ++
          (PyExc.attributeError "CANCELLED").str)))
    | some cancelled =>
      let updates : Updates :=
        { status := some cancelled, notes := some ("Cancelled: " ++ reason) }
      let clientRes :=
        if current_task.system = "NowCerts" then env.nowcertsUpdate task_id updates
        else env.closeUpdate task_id updates
      match clientRes with
      | .error e => (st, .error (.taskError ("Failed to cancel task: " ++ e.str)))
      | .ok cancelled_task =>
        match TaskStatusTracker.update_status st task_id cancelled
            (some reason) now with
        | .error e => (st, .error (.taskError ("Failed to cancel task: " ++ e.str)))
        | .ok st2 => (st2, .ok cancelled_task)

/-! ## `sync/system_sync.py` (claim C1)

The two API clients (`nowcerts_client`, `close_client`) are collaborators;
each call's behaviour is a parameter.  `SystemSynchronizer` state is its
`task_mappings` dict.  Besides the new state and the returned mapping,
`sync_task` reports the ordered list of writes it issued against the
secondary system, so that "creates a mirror" vs "updates the mirror" is
observable. -/

/-- A task record as returned by a client's `get_task` / `create_task`
(the fields `sync_task` reads). -/
structure ApiTask where
  id : String
  type : String
  description : String
  status : String
  due_date : String
deriving DecidableEq, Repr

/-- The payload `sync_task` passes to the secondary `create_task`. -/
structure CreatePayload where
  type : String
  description : String
  status : String
  due_date : String
  linked_task_id : String
deriving DecidableEq, Repr

/-- The payload `sync_task` passes to the secondary `update_task`. -/
structure UpdatePayload where
  status : String
  description : String
deriving DecidableEq, Repr

/-- One API client, abstractly: outcomes of the three calls the synchronizer
makes (`.error` is any exception the call raises). -/
structure SyncClient where
  get_task : String → Except String ApiTask
  create_task : CreatePayload → Except String ApiTask
  update_task : String → UpdatePayload → Except String ApiTask

/-- The synchronizer's two clients. -/
structure SyncEnv where
  nowcerts : SyncClient
  close : SyncClient

/-- One stored `SyncMapping`. -/
structure SyncMapping where
  primary_system : String
  primary_task_id : String
  secondary_system : String
  secondary_task_id : String
  last_synced : Nat
deriving DecidableEq, Repr

/-- A write issued against the secondary system during `sync_task`. -/
inductive SyncEffect where
  | created (payload : CreatePayload)
  | updated (id : String) (payload : UpdatePayload)
deriving DecidableEq, Repr

/-- The `SystemSynchronizer` state: its `task_mappings` dict. -/
abbrev MappingTable := PyDict SyncMapping

/-- The `SystemSynchronizer.sync_task`: fetch the primary task; with no stored
mapping for the id, create a mirror task in the secondary system and store a
new mapping; with a stored mapping, push `status`/`description` to the
mirror and refresh `last_synced`.  Any exception is wrapped into
`SyncError("Failed to sync task: ...")` (embedded as the `.error` string). -/
def SystemSynchronizer.sync_task (env : SyncEnv) (now : Nat) (st : MappingTable)
    (primary_task_id primary_system : String) :
    MappingTable × Except String SyncMapping × List SyncEffect :=
  let primaryClient :=
    if primary_system = "NowCerts" then env.nowcerts else env.close
  let secondary_system :=
    if primary_system = "NowCerts" then "Close" else "NowCerts"
  let secondaryClient :=
    if primary_system = "NowCerts" then env.close else env.nowcerts
  match primaryClient.get_task primary_task_id with
  | .error e => (st, .error ("Failed to sync task: " ++ e), [])
  | .ok primary_task =>
    match dictGet primary_task_id st with
    | none =>
      let payload : CreatePayload :=
        { type := primary_task.type, description := primary_task.description,
          status := primary_task.status, due_date := primary_task.due_date,
          linked_task_id := primary_task_id }
      match secondaryClient.create_task payload with
      | .error e => (st, .error ("Failed to sync task: " ++ e), [])
      | .ok secondary_task =>
        let mp : SyncMapping :=
          { primary_system := primary_system,
            primary_task_id := primary_task_id,
            secondary_system := secondary_system,
            secondary_task_id := secondary_task.id,
            last_synced := now }
        (dictSet primary_task_id mp st, .ok mp, [.created payload])
    | some mapping =>
      let payload : UpdatePayload :=
        { status := primary_task.status,
          description := primary_task.description }
      match secondaryClient.update_task mapping.secondary_task_id payload with
      | .error e => (st, .error ("Failed to sync task: " ++ e), [])
      | .ok _ =>
        let mp := { mapping with last_synced := now }
        (dictSet primary_task_id mp st, .ok mp,
         [.updated mapping.secondary_task_id payload])

/-! ## `ai_agents/patterns/registry.py` (claim C8)

`PatternStats` and the stats half of `PatternRegistry`: `record_match` and
`get_underperforming_patterns`, with the stats dict as explicit state and
confidences as exact rationals. -/

/-- Per-pattern statistics record (`PatternStats` dataclass). -/
structure PatternStats where
  «matches» : Nat
  false_positives : Nat
  avg_confidence : ℚ
  last_matched : Option Nat
  processing_time_ms : List Int
deriving DecidableEq, Repr

/-- A fresh `PatternStats()`. -/
def PatternStats.init : PatternStats :=
  { «matches» := 0, false_positives := 0, avg_confidence := 0,
    last_matched := none, processing_time_ms := [] }

/-- The `PatternRegistry._stats`: stats keyed by `"system:type"`. -/
abbrev StatsTable := PyDict PatternStats

/-- The `PatternRegistry.record_match`: create the entry when missing, bump the
false-positive or match counter, fold the confidence into the running mean
over all observations, and append the latency keeping the last 1000. -/
def PatternRegistry.record_match (st : StatsTable) (system pattern_type : String)
    (confidence : ℚ) (processing_time : Int) (is_false_positive : Bool)
    (now : Nat) : StatsTable :=
  let pattern_id := system ++ ":" ++ pattern_type
  let st := if st.any (fun p => p.1 = pattern_id) then st
            else st ++ [(pattern_id, PatternStats.init)]
  match dictGet pattern_id st with
  | none => st
  | some stats =>
    let stats :=
      if is_false_positive then
        { stats with false_positives := stats.false_positives + 1 }
      else
        { stats with «matches» := stats.«matches» + 1, last_matched := some now }
    let total_matches : ℚ := ((stats.«matches» + stats.false_positives : Nat) : ℚ)
    let stats := { stats with avg_confidence :=
      (stats.avg_confidence * (total_matches - 1) + confidence) / total_matches }
    let times := stats.processing_time_ms ++ [processing_time]
    let stats := { stats with processing_time_ms :=
      if times.length > 1000 then times.drop (times.length - 1000) else times }
    dictSet pattern_id stats st

/-- The `PatternRegistry.get_underperforming_patterns(min_confidence,
max_false_positive_rate)`: pattern ids with at least 10 observations whose
running mean confidence is below the threshold or whose false-positive rate
exceeds the cap, in stats-dict order.  Defaults at the call sites are
`0.7` and `0.1`. -/
def PatternRegistry.get_underperforming_patterns (st : StatsTable)
    (min_confidence max_false_positive_rate : ℚ) : List String :=
  (st.filter (fun p =>
    let total_matches : Nat := p.2.«matches» + p.2.false_positives
    if total_matches < 10 then false
    else
      let false_positive_rate : ℚ :=
        (p.2.false_positives : ℚ) / (total_matches : ℚ)
      decide (p.2.avg_confidence < min_confidence ∨
              false_positive_rate > max_false_positive_rate))).map (·.1)

/-- The spec's own words for the same operation, for claim C8: "returns
exactly the (system, category) keys with at least 10 recorded observations
whose average confidence is below `minConfidence` or whose false-positive
rate exceeds `maxFPRate`". -/
def underperformingPerSpec (st : StatsTable)
    (minConfidence maxFPRate : ℚ) : List String :=
  (st.filter (fun p =>
    let observations : Nat := p.2.«matches» + p.2.false_positives
    decide (10 ≤ observations ∧
      (p.2.avg_confidence < minConfidence ∨
       (p.2.false_positives : ℚ) / (observations : ℚ) > maxFPRate)))).map (·.1)

/-- Ten `record_match` calls in a row with the same system/category, each
with confidence `c` and each flagged false-positive (the C8 scenario). -/
def recordTenFalsePositives (st : StatsTable) (system pattern_type : String)
    (c : ℚ) : StatsTable :=
  (List.range 10).foldl
    (fun s i => PatternRegistry.record_match s system pattern_type c 0 true i) st

/-! ## `ai_agents/time_parser.py` does not compile (claims C4, C5, C6, C7)

Line 33 of `time_parser.py` — the second `self.time_patterns` entry — is
not valid Python.  The pattern is written as a raw single-quoted string
whose character class holds a backslash-quote pair followed by a quote; in
Python a backslash keeps the next character, in particular the delimiter,
from terminating a string literal (raw strings included: the backslash
stays in the value, but the literal does not end there), so the literal
terminates only at the doubled quote and the remaining `]clock` text leaves
a closing square bracket facing the open parenthesis of the enclosing
tuple.  CPython reports exactly that: a `SyntaxError` at line 33, "closing
parenthesis ] does not match opening parenthesis (".  The module therefore
never defines `TimeParser`, `ParsedTime` or `time_patterns`, and
`commitment_detector.py` — whose first package import is
`from .time_parser import TimeParser, ParsedTime` — can never be imported
either.  Enough of Python line lexing is embedded below to derive this from
the line text rather than assert it. -/

/-- Lexer state within one line of Python source: ordinary code, inside a
string literal with the given delimiter, inside a string just past a
backslash, or inside a trailing comment. -/
inductive LexMode where
  | code
  | str (q : Char)
  | strEsc (q : Char)
  | comment
deriving DecidableEq, Repr

/-- Bracket-lexing failures, as CPython reports them. -/
inductive LexErr where
  | bracketMismatch (closing expected : Char)
  | unmatchedClosing (closing : Char)
deriving DecidableEq, Repr

/-- Opening brackets. -/
def isOpenBr (c : Char) : Bool := c = '(' ∨ c = '[' ∨ c = '\x7b'

/-- Closing brackets. -/
def isCloseBr (c : Char) : Bool := c = ')' ∨ c = ']' ∨ c = '\x7d'

/-- Whether a closing bracket matches an opening one. -/
def matchOpen (c o : Char) : Bool :=
  (c = ')' ∧ o = '(') ∨ (c = ']' ∧ o = '[') ∨ (c = '\x7d' ∧ o = '\x7b')

/-- One line of Python source, lexed left to right with a bracket stack.
Inside a string literal a backslash consumes the next character, so a
backslash-quote pair never terminates the literal — Python applies this
rule to raw strings as well.  A string prefix such as `r` is an ordinary
character before the opening quote and needs no special case; `#` starts a
comment.  Returns the final mode and bracket stack, or the first bracket
error. -/
def pyLexAux : LexMode → List Char → List Char → Except LexErr (LexMode × List Char)
  | mode, stack, [] => .ok (mode, stack)
  | mode, stack, c :: rest =>
    match mode with
    | .comment => .ok (.comment, stack)
    | .strEsc q => pyLexAux (.str q) stack rest
    | .str q =>
      if c = '\\' then pyLexAux (.strEsc q) stack rest
      else if c = q then pyLexAux .code stack rest
      else pyLexAux (.str q) stack rest
    | .code =>
      if c = '#' then .ok (.comment, stack)
      else if c = '\x27' ∨ c = '"' then pyLexAux (.str c) stack rest
      else if isOpenBr c then pyLexAux .code (c :: stack) rest
      else if isCloseBr c then
        match stack with
        | [] => .error (.unmatchedClosing c)
        | o :: stack2 =>
          if matchOpen c o then pyLexAux .code stack2 rest
          else .error (.bracketMismatch c o)
      else pyLexAux .code stack rest

/-- Lex one line starting in code mode with an empty bracket stack. -/
def pyLexLine (line : String) : Except LexErr (LexMode × List Char) :=
  pyLexAux .code [] line.data

/-- The exact text of `time_parser.py` line 33 (apostrophes written `\x27`,
braces `\x7b` / `\x7d`): twelve spaces, then the tuple of the raw-string
pattern and its confidence, then the trailing comment. -/
def timeParserLine33 : String :=
  "            (r\x27(\\d\x7b1,2\x7d)(?::(\\d\x7b2\x7d))?\\s*o[\\\x27\x27]clock\x27, 0.9),  # \"3 o\x27clock\""

/-- The `SyntaxError` message CPython raises for that line. -/
def timeParserSyntaxErrorMsg : String :=
  "time_parser.py, line 33: closing parenthesis ] does not match opening parenthesis ("

/-- Outcome of `import jakebot.ai_agents.time_parser`: compiling the module
stops at line 33 with a `SyntaxError`, so the import raises and none of the
module's definitions ever exist.  (The error path is derived from the line
text through the lexer; the other branch is written out for completeness —
the remaining lines of the file lex without bracket errors.) -/
def importTimeParser : Except PyExc Unit :=
  match pyLexLine timeParserLine33 with
  | .error _ => .error (.syntaxError timeParserSyntaxErrorMsg)
  | .ok _ => .ok ()

/-- Outcome of `import jakebot.ai_agents.commitment_detector`: executing the
module body starts with `from .time_parser import TimeParser, ParsedTime`,
which loads `time_parser` and propagates its `SyntaxError`; the class
`CommitmentDetector` (and with it `detect_commitments`) never exists at
runtime. -/
def importCommitmentDetector : Except PyExc Unit :=
  match importTimeParser with
  | .error e => .error e
  | .ok _ => .ok ()

/-! ## `CommitmentDetector._determine_priority` as written (claim C4)

Even taken in isolation, the scoring method cannot return a priority for
any parsed time the pipeline would hand it: every due date built by
`parse_time` carries the parser's timezone (`datetime.now(self.timezone)`
or a reference defaulted from it), while `_determine_priority` subtracts
the naive `datetime.now()`; Python refuses to subtract offset-naive from
offset-aware datetimes.  The embedding makes the awareness of each datetime
explicit so that this error path is represented rather than collapsed. -/

/-- A Python datetime together with whether it is timezone-aware. -/
structure PyDateTime where
  dt : DateTime
  aware : Bool
deriving DecidableEq, Repr

/-- Python datetime subtraction: defined when both operands are naive or
both aware, a `TypeError` otherwise. -/
def pySubDatetime (a b : PyDateTime) : Except PyExc Int :=
  if a.aware = b.aware then .ok (a.dt.toSec - b.dt.toSec)
  else .error (.typeError "cannot subtract offset-naive and offset-aware datetimes")

/-- The urgency keyword list of `_determine_priority`. -/
def urgent_keywords : List String := ["urgent", "asap", "immediately", "emergency"]

/-- The method `CommitmentDetector._determine_priority`, line by line: base
score 3/2/1 from the pattern priority; then
`if parsed_time.due_date and (parsed_time.due_date - datetime.now()).days < 1`
— a datetime is always truthy, so the subtraction is always evaluated, and
`datetime.now()` here is naive; `timedelta.days` floors toward minus
infinity (`Int.fdiv`); +1 for an urgency keyword; ≥4 → high, ≥2 → normal,
else low. -/
def CommitmentDetector.determine_priority (base_priority description : String)
    (due_date now : PyDateTime) : Except PyExc String :=
  let s1 : Int := if base_priority = "high" then 3
                  else if base_priority = "normal" then 2 else 1
  match pySubDatetime due_date now with
  | .error e => .error e
  | .ok diff =>
    let s2 : Int := if diff.fdiv 86400 < 1 then s1 + 1 else s1
    let s3 : Int := if urgent_keywords.any (fun k => pyIn k description.toLower)
                    then s2 + 1 else s2
    .ok (if s3 ≥ 4 then "high" else if s3 ≥ 2 then "normal" else "low")

/-! ## Concrete inputs used by the witness theorems -/

/-- The primary-system task used in the C1 witness. -/
def c1PrimaryTask : ApiTask :=
  { id := "task_9", type := "document_sending", description := "send docs",
    status := "pending", due_date := "day 40" }

/-- A client whose calls all succeed, used for both systems in the C1
witness. -/
def c1Client : SyncClient where
  get_task := fun _ => .ok c1PrimaryTask
  create_task := fun p =>
    .ok { id := "close_77", type := p.type, description := p.description,
          status := p.status, due_date := p.due_date }
  update_task := fun _ _ =>
    .ok { id := "close_77", type := "", description := "", status := "",
          due_date := "" }

/-- The C1 witness environment. -/
def c1Env : SyncEnv := { nowcerts := c1Client, close := c1Client }

/-- Mapping stored by the first C1 witness call. -/
def c1M1 : SyncMapping :=
  { primary_system := "NowCerts", primary_task_id := "task_9",
    secondary_system := "Close", secondary_task_id := "close_77",
    last_synced := 3 }

/-- Mapping after the second C1 witness call (only `last_synced` moved). -/
def c1M2 : SyncMapping := { c1M1 with last_synced := 7 }

/-- Payload the first C1 witness call sends to the secondary system. -/
def c1Payload : CreatePayload :=
  { type := "document_sending", description := "send docs",
    status := "pending", due_date := "day 40", linked_task_id := "task_9" }

/-- An environment whose client updates succeed, for the C2 witness. -/
def c2Env : LifecycleEnv :=
  { nowcertsUpdate := fun _ _ => .ok "updated",
    closeUpdate := fun _ _ => .ok "updated" }

/-- Tracker holding one freshly created task, for the C2 witness. -/
def c2St : TrackerState := TaskStatusTracker.add_task [] "task_123" "NowCerts" 0

/-- The C2 witness update: set status directly to COMPLETED. -/
def c2Upd : Updates := { status := some .completed, notes := none }

/-- First completed step of the C3 witness; its compensation itself fails. -/
def c3StepA : TStep :=
  { opName := "create_nowcerts_task", system := "NowCerts", opResult := .ok 1,
    rollback_fn := some (.error "compensation failed") }

/-- Second completed step of the C3 witness; its compensation succeeds. -/
def c3StepB : TStep :=
  { opName := "create_close_task", system := "Close", opResult := .ok 2,
    rollback_fn := some (.ok ()) }

/-- The failing step of the C3 witness. -/
def c3FailStep : TStep :=
  { opName := "link_tasks", system := "Close",
    opResult := .error "API Error", rollback_fn := none }

/-- A successful step with a compensation, for the C10 witness. -/
def c10StepA : TStep :=
  { opName := "step_a", system := "NowCerts", opResult := .ok 1,
    rollback_fn := some (.ok ()) }

/-- A successful step executed between the two C10 witness failures. -/
def c10StepB : TStep :=
  { opName := "step_b", system := "Close", opResult := .ok 2,
    rollback_fn := some (.ok ()) }

/-- First failing step of the C10 witness. -/
def c10Fail1 : TStep :=
  { opName := "fail_1", system := "Close", opResult := .error "boom 1",
    rollback_fn := none }

/-- Second failing step of the C10 witness. -/
def c10Fail2 : TStep :=
  { opName := "fail_2", system := "NowCerts", opResult := .error "boom 2",
    rollback_fn := none }

/-- The tz-aware due date of the C4 witness (as every due date built by the
time parser would be). -/
def c4Due : PyDateTime :=
  { dt := { day := 1, hour := 9, minute := 0, second := 0 }, aware := true }

/-- The naive `datetime.now()` of the C4 witness. -/
def c4Now : PyDateTime :=
  { dt := { day := 0, hour := 10, minute := 0, second := 0 }, aware := false }

/-! ## Helper lemmas -/

/-- A key with no stored entry is absent from the dict. -/
theorem dictGet_none_of_countKey_zero {α : Type} {k : String} {d : PyDict α}
    (h : countKey k d = 0) : dictGet k d = none := by
  induction d with
  | nil => rfl
  | cons p t ih =>
    by_cases hp : p.1 = k
    · simp [countKey, List.filter_cons, hp] at h
    · simp only [countKey, List.filter_cons, hp, decide_eq_false_iff_not, not_false_iff,
        if_neg] at h
      simp only [dictGet, List.find?_cons]
      have : (decide (p.1 = k)) = false := by simp [hp]
      rw [this]
      exact ih (by simpa [countKey] using h)

/-- A key with no stored entry fails the `any` membership test. -/
theorem any_eq_false_of_countKey_zero {α : Type} {k : String} {d : PyDict α}
    (h : countKey k d = 0) : d.any (fun p => p.1 = k) = false := by
  induction d with
  | nil => rfl
  | cons p t ih =>
    by_cases hp : p.1 = k
    · simp [countKey, List.filter_cons, hp] at h
    · have ht : countKey k t = 0 := by
        simpa [countKey, List.filter_cons, hp] using h
      simp [List.any_cons, hp, ih ht]

/-- In-place replacement of the entries under `k` does not change how many
there are. -/
theorem countKey_map_replace {α : Type} (k : String) (v : α) (d : PyDict α) :
    countKey k (d.map (fun p => if p.1 = k then (k, v) else p)) = countKey k d := by
  induction d with
  | nil => rfl
  | cons p t ih =>
    by_cases hp : p.1 = k
    · simp only [List.map_cons, if_pos hp]
      simp only [countKey, List.filter_cons] at ih ⊢
      simp [hp, ih]
    · simp only [List.map_cons, if_neg hp]
      simp only [countKey, List.filter_cons] at ih ⊢
      simp [hp, ih]

/-- Storing under an absent key yields exactly one entry for it. -/
theorem countKey_dictSet_of_zero {α : Type} {k : String} {d : PyDict α} (v : α)
    (h : countKey k d = 0) : countKey k (dictSet k v d) = 1 := by
  unfold dictSet
  rw [any_eq_false_of_countKey_zero h]
  simp only [Bool.false_eq_true, if_false]
  simp only [countKey, List.filter_append] at h ⊢
  simp [h]

/-- Storing under a key with exactly one entry keeps exactly one entry. -/
theorem countKey_dictSet_of_one {α : Type} {k : String} {d : PyDict α} (v : α)
    (h : countKey k d = 1) : countKey k (dictSet k v d) = 1 := by
  unfold dictSet
  by_cases ha : d.any (fun p => p.1 = k)
  · rw [if_pos ha, countKey_map_replace, h]
  · exfalso
    have := any_eq_false_of_countKey_zero (d := d) (k := k)
    -- from ¬any, countKey must be 0
    have hz : countKey k d = 0 := by
      by_contra hnz
      -- some entry matches, so any is true
      have : ∃ p ∈ d, p.1 = k := by
        by_contra hno
        push_neg at hno
        have : d.filter (fun p => p.1 = k) = [] := by
          apply List.filter_eq_nil_iff.mpr
          intro p hp
          simp [hno p hp]
        exact hnz (by simp [countKey, this])
      obtain ⟨p, hpd, hpk⟩ := this
      exact ha (List.any_eq_true.mpr ⟨p, hpd, by simp [hpk]⟩)
    rw [hz] at h
    cases h

/-- After `d[k] = v`, looking up `k` yields `v`. -/
theorem dictGet_dictSet_self {α : Type} (k : String) (v : α) (d : PyDict α) :
    dictGet k (dictSet k v d) = some v := by
  unfold dictSet
  by_cases ha : d.any (fun p => p.1 = k)
  · rw [if_pos ha]
    induction d with
    | nil => simp at ha
    | cons p t ih =>
      by_cases hp : p.1 = k
      · simp [dictGet, List.find?_cons, hp]
      · simp only [List.any_cons, Bool.or_eq_true, decide_eq_true_eq] at ha
        have hat : t.any (fun p => p.1 = k) = true := by
          rcases ha with h1 | h2
          · exact absurd h1 hp
          · exact h2
        simp only [List.map_cons, if_neg hp]
        simp only [dictGet, List.find?_cons] at ih ⊢
        have : (decide (p.1 = k)) = false := by simp [hp]
        rw [this]
        exact ih hat
  · rw [if_neg ha]
    induction d with
    | nil => simp [dictGet, List.find?_cons]
    | cons p t ih =>
      simp only [List.any_cons, Bool.or_eq_true, decide_eq_true_eq, not_or] at ha
      have hp : ¬ p.1 = k := ha.1
      have hat : ¬ t.any (fun p => p.1 = k) = true := by
        simp [ha.2]
      simp only [List.cons_append, dictGet, List.find?_cons]
      have : (decide (p.1 = k)) = false := by simp [hp]
      rw [this]
      exact ih hat

/-- The rollback loop is the reverse-order compensation trace. -/
theorem foldl_rollback_trace (l : List TStep) : ∀ acc : List String,
    l.foldl (fun tr s => match s.rollback_fn with
      | none => tr
      | some _ => tr ++ [s.opName]) acc
      = acc ++ l.filterMap (fun s => s.rollback_fn.map (fun _ => s.opName)) := by
  induction l with
  | nil => simp
  | cons s t ih =>
    intro acc
    cases h : s.rollback_fn <;> simp [h, ih]

/-- The `rollback` computes exactly `rollbackTraceOf` of the completed list. -/
theorem rollback_eq_trace (st : TxState) :
    TransactionManager.rollback st = rollbackTraceOf st.completed_steps := by
  unfold TransactionManager.rollback rollbackTraceOf
  rw [foldl_rollback_trace]
  simp

/-- Compensation traces decompose over appended completed lists: the steps
completed later are compensated first, then the earlier ones again. -/
theorem rollbackTraceOf_append (l m : List TStep) :
    rollbackTraceOf (l ++ m) = rollbackTraceOf m ++ rollbackTraceOf l := by
  unfold rollbackTraceOf
  rw [List.reverse_append, List.filterMap_append]

/-- Executing only succeeding steps appends them in order to the completed
list. -/
theorem runSteps_ok_append (m : List TStep) : ∀ (st : TxState),
    (∀ s ∈ m, ∃ v, s.opResult = Except.ok v) →
    (TransactionManager.runSteps st m).completed_steps =
      st.completed_steps ++ m := by
  induction m with
  | nil => intro st _; simp [TransactionManager.runSteps]
  | cons s t ih =>
    intro st hm
    obtain ⟨v, hv⟩ := hm s (by simp)
    unfold TransactionManager.runSteps at ih ⊢
    simp only [List.foldl_cons]
    rw [show (TransactionManager.execute_step st s).1 =
        ⟨st.completed_steps ++ [s]⟩ by
      unfold TransactionManager.execute_step; rw [hv]]
    rw [ih ⟨st.completed_steps ++ [s]⟩ (fun q hq => hm q (by simp [hq]))]
    simp

/-- The `get_task_status` only ever raises the tracker's `ValueError`. -/
theorem get_task_status_error_form {st : TrackerState} {task_id : String}
    {e : PyExc} (h : TaskStatusTracker.get_task_status st task_id = .error e) :
    e = .valueError ("Task " ++ task_id ++ " not found") := by
  unfold TaskStatusTracker.get_task_status at h
  cases hg : dictGet task_id st with
  | none =>
    rw [hg] at h
    injection h with h2
    exact h2.symm
  | some t => rw [hg] at h; cases h

/-! ## Claim theorems -/

/-- C3: when a step's operation fails, `execute_step` first runs every
previously completed step's compensating action in reverse completion order
(one trace entry per step with a compensation, whether or not that
compensation itself fails — its exception is swallowed), leaves the
completed list as it was, and then raises — but what it raises is a
`NameError`, not a `TransactionError`: the name `TransactionError` is bound
neither in `workflow/transaction.py` nor in `jakebot/exceptions.py`. -/
theorem C3_execute_step_rollback_then_nameerror
    (st : TxState) (f : TStep) (msg : String)
    (hf : f.opResult = .error msg) :
    TransactionManager.execute_step st f =
      (st, .error (.nameError "TransactionError"),
       rollbackTraceOf st.completed_steps) ∧
    raiseByName "TransactionError" transactionModuleNames
      (.transactionError msg f.opName (st.completed_steps.map (·.opName))) =
      .nameError "TransactionError" := by
  constructor
  · unfold TransactionManager.execute_step
    rw [hf]
    rw [rollback_eq_trace]
    rfl
  · rfl

/-- Witness for C3: a manager with two completed steps (the first one's
compensation itself fails) and a failing third step: both compensations are
attempted, in reverse order, the completed list survives, and the raised
error is the `NameError`. -/
theorem C3_execute_step_rollback_then_nameerror_witness :
    TransactionManager.execute_step { completed_steps := [c3StepA, c3StepB] }
        c3FailStep =
      ({ completed_steps := [c3StepA, c3StepB] },
       .error (.nameError "TransactionError"),
       ["create_close_task", "create_nowcerts_task"]) ∧
    raiseByName "TransactionError" transactionModuleNames
      (.transactionError "API Error" "link_tasks"
        ["create_nowcerts_task", "create_close_task"]) =
      .nameError "TransactionError" :=
  C3_execute_step_rollback_then_nameerror
    { completed_steps := [c3StepA, c3StepB] } c3FailStep "API Error" rfl

/-- C10: a failing `execute_step` leaves `completed_steps` exactly as it
was (no step is removed after compensation), so after a first failure with
completed list `l`, further successes `m` and a second failure, the second
rollback's trace is the first failure's whole trace appended after the
compensations of `m` — the compensations of the steps completed before the
first failure run again (compensation is not at-most-once). -/
theorem C10_completed_steps_survive_rollback
    (l m : List TStep) (f1 f2 : TStep) (m1 m2 : String)
    (hf1 : f1.opResult = .error m1) (hf2 : f2.opResult = .error m2)
    (hm : ∀ s ∈ m, ∃ v, s.opResult = Except.ok v) :
    (TransactionManager.execute_step ⟨l⟩ f1).1.completed_steps = l ∧
    (TransactionManager.execute_step ⟨l⟩ f1).2.2 = rollbackTraceOf l ∧
    (TransactionManager.runSteps ⟨l⟩ m).completed_steps = l ++ m ∧
    (TransactionManager.execute_step (TransactionManager.runSteps ⟨l⟩ m) f2).2.2 =
      rollbackTraceOf m ++ rollbackTraceOf l := by
  have h1 : TransactionManager.execute_step ⟨l⟩ f1 =
      (⟨l⟩, .error (raiseByName "TransactionError" transactionModuleNames
        (.transactionError m1 f1.opName (l.map (·.opName)))),
       TransactionManager.rollback ⟨l⟩) := by
    unfold TransactionManager.execute_step; rw [hf1]
  have hrun : (TransactionManager.runSteps ⟨l⟩ m).completed_steps = l ++ m :=
    runSteps_ok_append m ⟨l⟩ hm
  refine ⟨by rw [h1], by rw [h1]; exact rollback_eq_trace ⟨l⟩, hrun, ?_⟩
  unfold TransactionManager.execute_step
  rw [hf2]
  simp only
  rw [rollback_eq_trace, hrun, rollbackTraceOf_append]

/-- Witness for C10: step A completes, a first failure compensates it, step
B then completes, and the second failure's rollback compensates both B and —
again — A. -/
theorem C10_completed_steps_survive_rollback_witness :
    (TransactionManager.execute_step ⟨[c10StepA]⟩ c10Fail1).1.completed_steps =
      [c10StepA] ∧
    (TransactionManager.execute_step ⟨[c10StepA]⟩ c10Fail1).2.2 =
      rollbackTraceOf [c10StepA] ∧
    (TransactionManager.runSteps ⟨[c10StepA]⟩ [c10StepB]).completed_steps =
      [c10StepA] ++ [c10StepB] ∧
    (TransactionManager.execute_step
        (TransactionManager.runSteps ⟨[c10StepA]⟩ [c10StepB]) c10Fail2).2.2 =
      rollbackTraceOf [c10StepB] ++ rollbackTraceOf [c10StepA] :=
  C10_completed_steps_survive_rollback [c10StepA] [c10StepB] c10Fail1 c10Fail2
    "boom 1" "boom 2" rfl rfl
    (by intro s hs; simp at hs; subst hs; exact ⟨2, rfl⟩)

/-- C2: with any updates dict that carries a status, `update_task` always
fails — the transition-table literal inside `_validate_state_transition`
evaluates the missing `TaskStatus.CANCELLED` member, so even a legal
PENDING→IN_PROGRESS update dies — and what surfaces is `TaskUpdateError`
(the generic handler's wrapping), never `ValidationError`; the tracker state
(status and history) is left unchanged. -/
theorem C2_status_update_always_taskupdateerror :
    validate_state_transition .pending .completed =
      .error (.attributeError "CANCELLED") ∧
    validate_state_transition .pending .in_progress =
      .error (.attributeError "CANCELLED") ∧
    ∀ (env : LifecycleEnv) (now : Nat) (st : TrackerState) (task_id : String)
      (upd : Updates) (s : TaskStatus), upd.status = some s →
      (TaskLifecycleManager.update_task env now st task_id upd).1 = st ∧
      ∃ msg, (TaskLifecycleManager.update_task env now st task_id upd).2 =
        .error (.taskUpdateError msg) := by
  refine ⟨rfl, rfl, ?_⟩
  intro env now st task_id upd s hupd
  unfold TaskLifecycleManager.update_task
  cases hg : TaskStatusTracker.get_task_status st task_id with
  | error e =>
    have he := get_task_status_error_form hg
    subst he
    exact ⟨rfl, _, rfl⟩
  | ok current_task =>
    rw [hupd]
    exact ⟨rfl, _, rfl⟩

/-- Witness for C2: a freshly created (PENDING, one-entry-history) task
updated straight to COMPLETED: the tracker is untouched and the surfaced
error is a `TaskUpdateError`. -/
theorem C2_status_update_always_taskupdateerror_witness :
    (TaskLifecycleManager.update_task c2Env 1 c2St "task_123" c2Upd).1 = c2St ∧
    ∃ msg, (TaskLifecycleManager.update_task c2Env 1 c2St "task_123" c2Upd).2 =
      .error (.taskUpdateError msg) :=
  C2_status_update_always_taskupdateerror.2.2 c2Env 1 c2St "task_123" c2Upd
    .completed rfl

/-- C9: `CANCELLED` is not a member of the `TaskStatus` enum the tracker
defines, and `cancel_task` — which builds an updates dict mentioning
`TaskStatus.CANCELLED` — therefore always raises `TaskError` and leaves the
tracker unchanged, for every tracked or untracked task, instead of
transitioning the task to CANCELLED with the reason in its history. -/
theorem C9_cancel_task_always_taskerror :
    TaskStatus.lookupMember "CANCELLED" = none ∧
    ∀ (env : LifecycleEnv) (now : Nat) (st : TrackerState)
      (task_id reason : String),
      (TaskLifecycleManager.cancel_task env now st task_id reason).1 = st ∧
      ∃ msg, (TaskLifecycleManager.cancel_task env now st task_id reason).2 =
        .error (.taskError msg) := by
  refine ⟨rfl, ?_⟩
  intro env now st task_id reason
  unfold TaskLifecycleManager.cancel_task
  cases hg : TaskStatusTracker.get_task_status st task_id with
  | error e => exact ⟨rfl, _, rfl⟩
  | ok current_task => exact ⟨rfl, _, rfl⟩

/-- C8: `get_underperforming_patterns` returns exactly the keys the spec
describes (at least 10 observations, mean confidence below the minimum or
false-positive rate above the cap), and in particular, after 10 recorded
matches of one category all at confidence 0.6 and all flagged
false-positive, the category's key is returned (with the default thresholds
0.7 / 0.1). -/
theorem C8_underperforming_patterns :
    (∀ (st : StatsTable) (minC maxFP : ℚ),
      PatternRegistry.get_underperforming_patterns st minC maxFP =
        underperformingPerSpec st minC maxFP) ∧
    PatternRegistry.get_underperforming_patterns
        (recordTenFalsePositives [] "insurance" "document_sending" (6/10))
        (7/10) (1/10) =
      ["insurance:document_sending"] := by
  constructor
  · intro st minC maxFP
    unfold PatternRegistry.get_underperforming_patterns underperformingPerSpec
    congr 1
    apply List.filter_congr
    intro p _
    dsimp only
    by_cases h : p.2.«matches» + p.2.false_positives < 10
    · rw [if_pos h]
      symm
      simp only [decide_eq_false_iff_not]
      rintro ⟨h10, -⟩
      omega
    · rw [if_neg h]
      have h10 : 10 ≤ p.2.«matches» + p.2.false_positives := by omega
      rw [decide_eq_decide]
      constructor
      · intro hab
        exact ⟨h10, hab⟩
      · rintro ⟨-, hab⟩
        exact hab
  · with_unfolding_all rfl

/-- C1: starting from a state with no mapping for the primary id, a first
successful `sync_task` call issues exactly one mirror-creation against the
secondary system, and a second successful call for the same id issues only a
mirror update (never another creation), leaves exactly one stored mapping
for the id — the same mirror id — and refreshes only `last_synced`. -/
theorem C1_sync_task_idempotent
    (env : SyncEnv) (now1 now2 : Nat) (st st1 st2 : MappingTable)
    (m1 m2 : SyncMapping) (eff1 eff2 : List SyncEffect) (id psys : String)
    (h0 : countKey id st = 0)
    (h1 : SystemSynchronizer.sync_task env now1 st id psys = (st1, .ok m1, eff1))
    (h2 : SystemSynchronizer.sync_task env now2 st1 id psys = (st2, .ok m2, eff2)) :
    countKey id st2 = 1 ∧
    (∃ p, eff1 = [SyncEffect.created p]) ∧
    (∃ sid up, eff2 = [SyncEffect.updated sid up]) ∧
    (∀ p, SyncEffect.created p ∉ eff2) ∧
    m2.secondary_task_id = m1.secondary_task_id ∧
    m2 = { m1 with last_synced := now2 } ∧
    dictGet id st2 = some m2 := by
  simp only [SystemSynchronizer.sync_task] at h1 h2
  set pc := (if psys = "NowCerts" then env.nowcerts else env.close) with hpc
  set sc := (if psys = "NowCerts" then env.close else env.nowcerts) with hsc
  set ssys := (if psys = "NowCerts" then "Close" else "NowCerts") with hssys
  cases hget : pc.get_task id with
  | error e => rw [hget] at h1; simp at h1
  | ok primary_task =>
    rw [hget] at h1 h2
    dsimp only at h1 h2
    rw [dictGet_none_of_countKey_zero h0] at h1
    dsimp only at h1
    cases hcr : sc.create_task
        { type := primary_task.type, description := primary_task.description,
          status := primary_task.status, due_date := primary_task.due_date,
          linked_task_id := id } with
    | error e => rw [hcr] at h1; simp at h1
    | ok secondary_task =>
      rw [hcr] at h1
      dsimp only at h1
      simp only [Prod.mk.injEq, Except.ok.injEq] at h1
      obtain ⟨hst1, hm1, heff1⟩ := h1
      subst hst1
      subst hm1
      rw [dictGet_dictSet_self] at h2
      dsimp only at h2
      cases hup : sc.update_task secondary_task.id
          { status := primary_task.status,
            description := primary_task.description } with
      | error e => rw [hup] at h2; simp at h2
      | ok u =>
        rw [hup] at h2
        dsimp only at h2
        simp only [Prod.mk.injEq, Except.ok.injEq] at h2
        obtain ⟨hst2, hm2, heff2⟩ := h2
        subst hst2
        subst hm2
        refine ⟨?_, ⟨_, heff1.symm⟩, ⟨_, _, heff2.symm⟩, ?_, rfl, rfl, ?_⟩
        · exact countKey_dictSet_of_one _ (countKey_dictSet_of_zero _ h0)
        · intro p hp
          rw [← heff2] at hp
          simp at hp
        · exact dictGet_dictSet_self ..


/-- Witness for C1: a concrete two-call run against always-succeeding
clients, starting from an empty mapping table. -/
theorem C1_sync_task_idempotent_witness :
    countKey "task_9" [("task_9", c1M2)] = 1 ∧
    (∃ p, [SyncEffect.created c1Payload] = [SyncEffect.created p]) ∧
    (∃ sid up,
      [SyncEffect.updated "close_77"
        { status := "pending", description := "send docs" }] =
        [SyncEffect.updated sid up]) ∧
    (∀ p, SyncEffect.created p ∉
      [SyncEffect.updated "close_77"
        { status := "pending", description := "send docs" }]) ∧
    c1M2.secondary_task_id = c1M1.secondary_task_id ∧
    c1M2 = { c1M1 with last_synced := 7 } ∧
    dictGet "task_9" [("task_9", c1M2)] = some c1M2 :=
  C1_sync_task_idempotent c1Env 3 7 [] [("task_9", c1M1)] [("task_9", c1M2)]
    c1M1 c1M2 [SyncEffect.created c1Payload]
    [SyncEffect.updated "close_77" { status := "pending", description := "send docs" }]
    "task_9" "NowCerts" (by decide) (by rfl) (by rfl)

/-- C4: the priority-scoring rule of the spec is never executed.  First,
`commitment_detector.py` cannot even be imported: its first package import
loads `time_parser.py`, which dies at line 33 with a `SyntaxError`, so
`_determine_priority` does not exist at runtime.  Second, the method body
itself cannot produce a priority for any parsed time the pipeline would
hand it: every due date the parser builds is timezone-aware while
`datetime.now()` in the subtraction is naive, so the comparison raises
`TypeError` before any score is computed — instead of the claimed
high/normal/low result. -/
theorem C4_priority_never_computed :
    importCommitmentDetector = .error (.syntaxError timeParserSyntaxErrorMsg) ∧
    ∀ (base_priority description : String) (due now : PyDateTime),
      due.aware = true → now.aware = false →
      CommitmentDetector.determine_priority base_priority description due now =
        .error (.typeError "cannot subtract offset-naive and offset-aware datetimes") := by
  refine ⟨rfl, ?_⟩
  intro base_priority description due now hd hn
  unfold CommitmentDetector.determine_priority pySubDatetime
  rw [hd, hn]
  rfl

/-- Witness for C4: with a concrete aware due date and naive clock, the
scoring method returns the `TypeError` and no priority. -/
theorem C4_priority_never_computed_witness :
    CommitmentDetector.determine_priority "normal" "send the documents" c4Due c4Now =
      .error (.typeError "cannot subtract offset-naive and offset-aware datetimes") :=
  C4_priority_never_computed.2 "normal" "send the documents" c4Due c4Now rfl rfl

/-- C5: the invariants claimed for `detect_commitments` — nonempty
description, present due date, confidence in [0, 1] — are about a function
that has no runtime behavior at all: importing `commitment_detector`
propagates the `SyntaxError` of `time_parser.py` line 33, so
`detect_commitments` is never defined and never returns a list of
commitments (the tests in `test_commitment_detector.py` fail at import).
The theorem derives the import outcome from the embedded line text. -/
theorem C5_detector_never_runs :
    importCommitmentDetector = .error (.syntaxError timeParserSyntaxErrorMsg) :=
  rfl

/-- C6: `parse_time` cannot return a `ParsedTime`, with or without a
fallback, because `time_parser.py` is not valid Python: lexing line 33, the
backslash-quote pair inside the raw string keeps the literal open to the
doubled quote, after which the `]` of `clock` meets the `(` of the
enclosing tuple — the exact bracket mismatch CPython reports as a
`SyntaxError`.  The module, hence `TimeParser`, never loads, contradicting
the claim that every call returns a `ParsedTime`. -/
theorem C6_time_parser_never_loads :
    pyLexLine timeParserLine33 = .error (.bracketMismatch ']' '(') ∧
    importTimeParser = .error (.syntaxError timeParserSyntaxErrorMsg) :=
  ⟨rfl, rfl⟩

/-- C7: on the scenario transcript no commitment is ever produced — not
because the patterns fail to match, but because the detector cannot be
constructed at all: `from jakebot.ai_agents.commitment_detector import
CommitmentDetector` raises the `SyntaxError` inherited from
`time_parser.py`, so the claimed single document-sending commitment with
confidence at least 0.9 (expected by `test_basic_send_commitment`) never
exists. -/
theorem C7_detector_never_constructed :
    importCommitmentDetector = .error (.syntaxError timeParserSyntaxErrorMsg) ∧
    importTimeParser = .error (.syntaxError timeParserSyntaxErrorMsg) :=
  ⟨rfl, rfl⟩

end JakeBot
